import Mathlib

/-!
Verification of the Weather-Trend-Forecasting frontend/backend prediction
contract.  The frontend is embedded from the three JavaScript copies in the
repository (`src/frontend/script.js`, `src/unnamed/part_000`,
`src/unnamed/part_001`); JavaScript numbers are modelled as `ℚ` (plus the
IEEE non-finite values where division can produce them) and JSON values as a
small inductive type.  The FastAPI backend (`src/app.py`) is not part of the
source tree, so the backend pipeline is modelled from the specification; each
such definition is marked `Modelled from the spec:`.
-/

namespace WeatherTrend

/-- JSON values as the frontend sees them after `response.json()` /
before `JSON.stringify`: strings, numbers and objects (arrays and booleans
never occur in this contract). -/
inductive Json where
  | str : String → Json
  | num : ℚ → Json
  | obj : List (String × Json) → Json

/-- Key lookup in a JSON object's field list (first binding wins, as in a
JavaScript object literal). -/
def lookupKey : List (String × Json) → String → Option Json
  | [], _ => none
  | (k, v) :: rest, key => if k = key then some v else lookupKey rest key

/-- JavaScript property access `j.key`: `some` when `j` is an object with the
field, `none` when the field is absent (JavaScript `undefined`) or `j` is not
an object. -/
def Json.get : Json → String → Option Json
  | .obj kvs, key => lookupKey kvs key
  | _, _ => none

/-- The five form controls read by the scripts: `targetDate` holds the date
input's string value; the four numeric fields hold the value of
`parseFloat(document.getElementById(...).value)`. -/
structure FormState where
  targetDate : String
  pressure : ℚ
  humidity : ℚ
  wind : ℚ
  precipitation : ℚ

/-- The request-body keys of the documented `POST /predict_temperature/`
contract (spec section 6 and the repository README). -/
def contractBodyKeys : List String :=
  ["target_date", "pressure_mean", "humidity_mean", "wind_mean", "precip_mean"]

/-- The `formData` object built by `handlePrediction` in
`src/frontend/script.js` (lines 109-115), in source order: this copy names
the numeric keys `pressure_millibars`, `humidity`, `wind_speed_kmh` and
`precip_mm`. -/
def handlePrediction_body_scriptJs (f : FormState) : List (String × Json) :=
  [("target_date", .str f.targetDate),
   ("pressure_millibars", .num f.pressure),
   ("humidity", .num f.humidity),
   ("wind_speed_kmh", .num f.wind),
   ("precip_mm", .num f.precipitation)]

/-- The `formData` object built by `handlePrediction` in
`src/unnamed/part_000` (lines 120-126), in source order. -/
def handlePrediction_body_part000 (f : FormState) : List (String × Json) :=
  [("target_date", .str f.targetDate),
   ("pressure_mean", .num f.pressure),
   ("humidity_mean", .num f.humidity),
   ("wind_mean", .num f.wind),
   ("precip_mean", .num f.precipitation)]

/-- The `formData` object built by `handlePrediction` in
`src/unnamed/part_001` (lines 104-110), in source order. -/
def handlePrediction_body_part001 (f : FormState) : List (String × Json) :=
  [("target_date", .str f.targetDate),
   ("pressure_mean", .num f.pressure),
   ("humidity_mean", .num f.humidity),
   ("wind_mean", .num f.wind),
   ("precip_mean", .num f.precipitation)]

/-- A concrete form input: the README's sample request values. -/
def demoForm : FormState := ⟨"2024-12-25", 1015, 68, 15, 1⟩

/-- The response fields dereferenced by `displayResults` in
`src/frontend/script.js` (lines 177-197), in source reading order:
`data.predicted_temperature`, `data.confidence_interval.lower`,
`data.confidence_interval.upper`, `data.model_used`,
`data.model_metadata?.version`. -/
def displayResults_reads_scriptJs (data : Json) :
    Option Json × Option Json × Option Json × Option Json × Option Json :=
  (data.get "predicted_temperature",
   (data.get "confidence_interval").bind (fun ci => ci.get "lower"),
   (data.get "confidence_interval").bind (fun ci => ci.get "upper"),
   data.get "model_used",
   (data.get "model_metadata").bind (fun md => md.get "version"))

/-- The response fields dereferenced by `displayResults` in
`src/unnamed/part_000` (lines 188-208):
`data.predicted_global_temperature_celsius`,
`data.confidence_interval.lower_bound`,
`data.confidence_interval.upper_bound`, `data.model_used`,
`data.model_version`. -/
def displayResults_reads_part000 (data : Json) :
    Option Json × Option Json × Option Json × Option Json × Option Json :=
  (data.get "predicted_global_temperature_celsius",
   (data.get "confidence_interval").bind (fun ci => ci.get "lower_bound"),
   (data.get "confidence_interval").bind (fun ci => ci.get "upper_bound"),
   data.get "model_used",
   data.get "model_version")

/-- The response fields dereferenced by `displayResults` in
`src/unnamed/part_001` (lines 145-169): the same five contract fields as
`part_000`. -/
def displayResults_reads_part001 (data : Json) :
    Option Json × Option Json × Option Json × Option Json × Option Json :=
  (data.get "predicted_global_temperature_celsius",
   (data.get "confidence_interval").bind (fun ci => ci.get "lower_bound"),
   (data.get "confidence_interval").bind (fun ci => ci.get "upper_bound"),
   data.get "model_used",
   data.get "model_version")

/-- The documented 200 response of `POST /predict_temperature/` (spec
section 6; README sample response). -/
def sampleResponse : Json :=
  .obj [("date", .str "2024-12-25"),
        ("predicted_global_temperature_celsius", .num 15.23),
        ("model_used", .str "Ensemble Stacking Regressor (XGBoost + RidgeCV)"),
        ("confidence_interval",
          .obj [("lower_bound", .num 13.23),
                ("upper_bound", .num 17.23),
                ("confidence_level", .str "~95%")]),
        ("model_version", .str "1.0")]

/-- A JavaScript number arising from the range-bar arithmetic: a finite
value, or one of the IEEE-754 non-finite values a zero divisor produces. -/
inductive JsNum where
  | fin : ℚ → JsNum
  | nan : JsNum
  | posInf : JsNum
  | negInf : JsNum
deriving DecidableEq

/-- JavaScript division `x / y` on finite operands: a zero divisor yields
`NaN` when the dividend is also zero and `±Infinity` otherwise. -/
def jsDiv (x y : ℚ) : JsNum :=
  if y = 0 then
    if x = 0 then .nan else if 0 < x then .posInf else .negInf
  else .fin (x / y)

/-- JavaScript multiplication of the quotient by the positive literal `100`
(the `* 100` in the position computation): it preserves `NaN` and the sign
of infinities. -/
def jsMul100 : JsNum → JsNum
  | .fin q => .fin (q * 100)
  | .nan => .nan
  | .posInf => .posInf
  | .negInf => .negInf

/-- The normalized-position computation of `displayResults`
(`src/frontend/script.js` lines 189-190, `src/unnamed/part_000` lines
200-201, `src/unnamed/part_001` lines 161-162):
`range = confHigh - confLow; position = ((prediction - confLow) / range) * 100`
with no guard on `range = 0`. -/
def displayResults_position (prediction confLow confHigh : ℚ) : JsNum :=
  jsMul100 (jsDiv (prediction - confLow) (confHigh - confLow))

/-- The style values written from `position` with no intervening check
(`rangeFill.style.width` and `rangeMarker.style.left` in
`src/frontend/script.js` lines 192-193 and `src/unnamed/part_000` lines
203-204; `part_001` writes only the marker). -/
structure RangeBarStyle where
  fillWidth : JsNum
  markerLeft : JsNum
deriving DecidableEq

/-- The unconditional style assignment after the position computation. -/
def displayResults_rangeBar (prediction confLow confHigh : ℚ) : RangeBarStyle :=
  let position := displayResults_position prediction confLow confHigh
  ⟨position, position⟩

/-- C1: the claim says every copy's form submission posts exactly the keys
`target_date`, `pressure_mean`, `humidity_mean`, `wind_mean`, `precip_mean`
with the date string and the four parsed numeric values.  The copies in
`part_000` and `part_001` do; `src/frontend/script.js` instead posts
`pressure_millibars`, `humidity`, `wind_speed_kmh`, `precip_mm`,
contradicting the repository's own README contract (a code bug), as this
evaluation at the README's sample input shows. -/
theorem c1_body_keys :
    (handlePrediction_body_part000 demoForm).map Prod.fst = contractBodyKeys ∧
    (handlePrediction_body_part001 demoForm).map Prod.fst = contractBodyKeys ∧
    handlePrediction_body_part000 demoForm =
      [("target_date", Json.str "2024-12-25"), ("pressure_mean", Json.num 1015),
       ("humidity_mean", Json.num 68), ("wind_mean", Json.num 15),
       ("precip_mean", Json.num 1)] ∧
    (handlePrediction_body_scriptJs demoForm).map Prod.fst ≠ contractBodyKeys ∧
    (handlePrediction_body_scriptJs demoForm).map Prod.fst =
      ["target_date", "pressure_millibars", "humidity", "wind_speed_kmh",
       "precip_mm"] :=
  ⟨by decide, by decide, rfl, by decide, by decide⟩

/-- C2: the claim says every copy's `displayResults` reads the point
estimate from `predicted_global_temperature_celsius`, the bounds from
`confidence_interval.lower_bound` / `.upper_bound`, and displays
`model_used` and `model_version`.  On the documented 200 response the
`part_000` and `part_001` copies resolve exactly those fields, but
`src/frontend/script.js` dereferences `predicted_temperature`,
`confidence_interval.lower` / `.upper` and `model_metadata.version`, none of
which exist in a conforming response (a code bug: `undefined.toFixed`
throws). -/
theorem c2_response_fields :
    displayResults_reads_part000 sampleResponse =
      (some (.num 15.23), some (.num 13.23), some (.num 17.23),
       some (.str "Ensemble Stacking Regressor (XGBoost + RidgeCV)"),
       some (.str "1.0")) ∧
    displayResults_reads_part001 sampleResponse =
      (some (.num 15.23), some (.num 13.23), some (.num 17.23),
       some (.str "Ensemble Stacking Regressor (XGBoost + RidgeCV)"),
       some (.str "1.0")) ∧
    displayResults_reads_scriptJs sampleResponse =
      (none, none, none,
       some (.str "Ensemble Stacking Regressor (XGBoost + RidgeCV)"),
       none) :=
  ⟨rfl, rfl, rfl⟩

/-- C3: the claim says the presentation layer guards the normalized-position
division `(prediction - lower) / (upper - lower)` against a zero divisor
before using the result.  No copy does: with `lower = upper = 15` the
position is `NaN` (and `+Infinity` when the prediction exceeds the collapsed
bound) and is written unguarded into both range-bar style values. -/
theorem c3_position_unguarded :
    displayResults_position 15 15 15 = JsNum.nan ∧
    (displayResults_rangeBar 15 15 15).fillWidth = JsNum.nan ∧
    (displayResults_rangeBar 15 15 15).markerLeft = JsNum.nan ∧
    displayResults_position 16 15 15 = JsNum.posInf := by
  refine ⟨?_, ?_, ?_, ?_⟩ <;>
    norm_num [displayResults_rangeBar, displayResults_position, jsDiv, jsMul100]

/-- The DOM state tracked for `handlePrediction`: whether the submit button
is disabled, whether the button loader is shown (the button text is shown
exactly when the loader is not), whether the result card is visible, and
whether an error alert (`showError` in `script.js`/`part_000`, `alert` in
`part_001`) has been raised.  Text-content updates are not tracked. -/
structure UIState where
  btnDisabled : Bool
  loaderShown : Bool
  resultShown : Bool
  errorShown : Bool
deriving DecidableEq

/-- Outcome of the `fetch` call inside `handlePrediction`: the promise
rejects (network failure), the response has a non-ok status (its error body
is only used for the message), the response is ok but `response.json()`
throws on an unparseable body, or the response is ok with a parsed JSON
body. -/
inductive FetchOutcome where
  | netError : FetchOutcome
  | httpError : FetchOutcome
  | okBadJson : FetchOutcome
  | ok : Json → FetchOutcome

/-- `displayResults` from `src/frontend/script.js` (lines 163-203) as a
transition on the tracked state, with a flag for normal completion: the
result card is revealed first; then `data.predicted_temperature.toFixed(2)`
throws unless that field is a number; then
`data.confidence_interval.lower`/`.upper` followed by `confLow.toFixed(2)` /
`confHigh.toFixed(2)` throw unless `confidence_interval` is an object whose
`lower` and `upper` fields are numbers.  Only the card reveal touches the
tracked state before any throwing line. -/
def displayResults_ui_scriptJs (s : UIState) (data : Json) : UIState × Bool :=
  let shown : UIState := { s with resultShown := true }
  match data.get "predicted_temperature" with
  | some (.num _) =>
    match (data.get "confidence_interval").bind (fun ci => ci.get "lower"),
          (data.get "confidence_interval").bind (fun ci => ci.get "upper") with
    | some (.num _), some (.num _) => (shown, true)
    | _, _ => (shown, false)
  | _ => (shown, false)

/-- `displayResults` from `src/unnamed/part_000` (lines 174-214): the same
shape as the `script.js` copy (card revealed first) but dereferencing the
contract fields `predicted_global_temperature_celsius` and
`confidence_interval.lower_bound`/`.upper_bound`. -/
def displayResults_ui_part000 (s : UIState) (data : Json) : UIState × Bool :=
  let shown : UIState := { s with resultShown := true }
  match data.get "predicted_global_temperature_celsius" with
  | some (.num _) =>
    match (data.get "confidence_interval").bind (fun ci => ci.get "lower_bound"),
          (data.get "confidence_interval").bind (fun ci => ci.get "upper_bound") with
    | some (.num _), some (.num _) => (shown, true)
    | _, _ => (shown, false)
  | _ => (shown, false)

/-- `displayResults` from `src/unnamed/part_001` (lines 141-178): it throws
on `result.predicted_global_temperature_celsius.toFixed(1)` unless that
field is a number and on `confidence.lower_bound` unless
`confidence_interval` is present (the bounds themselves are interpolated
into template strings, which never throws), and reveals the result card only
as its last statement — so a throw leaves the card hidden. -/
def displayResults_ui_part001 (s : UIState) (data : Json) : UIState × Bool :=
  match data.get "predicted_global_temperature_celsius" with
  | some (.num _) =>
    match data.get "confidence_interval" with
    | some _ => ({ s with resultShown := true }, true)
    | none => (s, false)
  | _ => (s, false)

/-- `handlePrediction` from `src/frontend/script.js` (lines 107-145):
`setLoadingState(true)` and `hideResults()` run first; the `try` block
throws on network failure, non-ok status or bad JSON (caught by `showError`)
and otherwise calls `displayResults`, whose own throw is caught by the same
handler; the `finally` block always runs `setLoadingState(false)`. -/
def handlePrediction_scriptJs (s : UIState) (o : FetchOutcome) : UIState :=
  let s1 : UIState := { s with btnDisabled := true, loaderShown := true, resultShown := false }
  let s2 : UIState :=
    match o with
    | .netError => { s1 with errorShown := true }
    | .httpError => { s1 with errorShown := true }
    | .okBadJson => { s1 with errorShown := true }
    | .ok body =>
      match displayResults_ui_scriptJs s1 body with
      | (sd, true) => sd
      | (sd, false) => { sd with errorShown := true }
  { s2 with btnDisabled := false, loaderShown := false }

/-- `handlePrediction` from `src/unnamed/part_000` (lines 118-156): the same
control flow as the `script.js` copy, calling that file's
`displayResults`. -/
def handlePrediction_part000 (s : UIState) (o : FetchOutcome) : UIState :=
  let s1 : UIState := { s with btnDisabled := true, loaderShown := true, resultShown := false }
  let s2 : UIState :=
    match o with
    | .netError => { s1 with errorShown := true }
    | .httpError => { s1 with errorShown := true }
    | .okBadJson => { s1 with errorShown := true }
    | .ok body =>
      match displayResults_ui_part000 s1 body with
      | (sd, true) => sd
      | (sd, false) => { sd with errorShown := true }
  { s2 with btnDisabled := false, loaderShown := false }

/-- `handlePrediction` from `src/unnamed/part_001` (lines 89-138): the
loading state and card hiding are inlined before the `try`; the `catch`
raises an `alert` (tracked as `errorShown`); the `finally` re-enables the
button and hides the loader. -/
def handlePrediction_part001 (s : UIState) (o : FetchOutcome) : UIState :=
  let s1 : UIState := { s with btnDisabled := true, loaderShown := true, resultShown := false }
  let s2 : UIState :=
    match o with
    | .netError => { s1 with errorShown := true }
    | .httpError => { s1 with errorShown := true }
    | .okBadJson => { s1 with errorShown := true }
    | .ok body =>
      match displayResults_ui_part001 s1 body with
      | (sd, true) => sd
      | (sd, false) => { sd with errorShown := true }
  { s2 with btnDisabled := false, loaderShown := false }

/-- Case analysis for the `part_001` `displayResults`: it either completes
normally having revealed the card, or throws leaving the tracked state
untouched. -/
theorem displayResults_ui_part001_cases (s : UIState) (b : Json) :
    displayResults_ui_part001 s b = ({ s with resultShown := true }, true) ∨
    displayResults_ui_part001 s b = (s, false) := by
  unfold displayResults_ui_part001
  split
  · split
    · exact Or.inl rfl
    · exact Or.inr rfl
  · exact Or.inr rfl

/-- C9 counterexample: an ok (200) response whose parsed body is the empty
object, handled by the `part_000` copy from the pristine UI state.
`displayResults` reveals the result card before dereferencing
`predicted_global_temperature_celsius`, whose absence makes `toFixed` throw;
the catch block then shows the error — so this error path ends with the
result card visible, refuting the claim that every error path leaves it
hidden. -/
theorem c9_error_path_card_visible :
    (handlePrediction_part000 ⟨false, false, false, false⟩
        (.ok (.obj []))).errorShown = true ∧
    (handlePrediction_part000 ⟨false, false, false, false⟩
        (.ok (.obj []))).resultShown = true :=
  ⟨rfl, rfl⟩

/-- C9 (amended): for every invocation of `handlePrediction`, in each of the
three copies, the submit button is re-enabled and the loader hidden when the
call completes, whatever the fetch outcome; the result card remains hidden
on every error path that fails before `displayResults` starts (network
error, non-ok status, unparseable ok body); and in the `part_001` copy the
card remains hidden on every error path whatsoever.  (In `script.js` and
`part_000` the card is revealed before the response fields are read, so an
ok body lacking those fields leaves the card visible on the resulting error
path.) -/
theorem c9_ui_restore (s : UIState) (o : FetchOutcome) :
    ((handlePrediction_scriptJs s o).btnDisabled = false ∧
     (handlePrediction_scriptJs s o).loaderShown = false) ∧
    ((handlePrediction_part000 s o).btnDisabled = false ∧
     (handlePrediction_part000 s o).loaderShown = false) ∧
    ((handlePrediction_part001 s o).btnDisabled = false ∧
     (handlePrediction_part001 s o).loaderShown = false) ∧
    (o = .netError ∨ o = .httpError ∨ o = .okBadJson →
      (handlePrediction_scriptJs s o).resultShown = false ∧
      (handlePrediction_part000 s o).resultShown = false ∧
      (handlePrediction_part001 s o).resultShown = false) ∧
    (s.errorShown = false →
      (handlePrediction_part001 s o).errorShown = true →
      (handlePrediction_part001 s o).resultShown = false) := by
  cases o with
  | netError => simp [handlePrediction_scriptJs, handlePrediction_part000,
      handlePrediction_part001]
  | httpError => simp [handlePrediction_scriptJs, handlePrediction_part000,
      handlePrediction_part001]
  | okBadJson => simp [handlePrediction_scriptJs, handlePrediction_part000,
      handlePrediction_part001]
  | ok body =>
    refine ⟨?_, ?_, ?_, ?_, ?_⟩
    · unfold handlePrediction_scriptJs
      split <;> simp
    · unfold handlePrediction_part000
      split <;> simp
    · unfold handlePrediction_part001
      split <;> simp
    · rintro (h | h | h) <;> exact absurd h (by simp)
    · intro hs
      unfold handlePrediction_part001
      rcases displayResults_ui_part001_cases
          { s with btnDisabled := true, loaderShown := true, resultShown := false }
          body with h | h <;> rw [hs] at h <;> rw [hs] <;> simp [h]

/-- C9 witness: the amended claim at the pristine UI state and a network
failure: the button ends enabled, the loader hidden, the result card hidden
on this error path (in particular in the `part_001` copy, where the error
alert was raised). -/
theorem c9_ui_restore_witness :
    (handlePrediction_scriptJs ⟨false, false, false, false⟩ .netError).btnDisabled = false ∧
    (handlePrediction_part000 ⟨false, false, false, false⟩ .netError).resultShown = false ∧
    (handlePrediction_part001 ⟨false, false, false, false⟩ .netError).resultShown = false :=
  ⟨(c9_ui_restore ⟨false, false, false, false⟩ .netError).1.1,
   ((c9_ui_restore ⟨false, false, false, false⟩ .netError).2.2.2.1 (Or.inl rfl)).2.1,
   (c9_ui_restore ⟨false, false, false, false⟩ .netError).2.2.2.2 rfl rfl⟩

/-- A preset scenario: the four numeric values a preset button writes into
the form. -/
structure Preset where
  pressure : ℚ
  humidity : ℚ
  wind : ℚ
  precipitation : ℚ

/-- The value a numeric form input holds for `loadPreset`: a number
previously typed or assigned, or the result of assigning JavaScript
`undefined` to `input.value` (the parsed view of `FormState` cannot
represent the latter, which is why `loadPreset` is embedded at this
write level). -/
inductive InputVal where
  | num : ℚ → InputVal
  | undefWrite : InputVal
deriving DecidableEq

/-- The write-level view of the form as `loadPreset` mutates it: the date
input's string and the four numeric inputs. -/
structure FormInputs where
  targetDate : String
  pressure : InputVal
  humidity : InputVal
  wind : InputVal
  precipitation : InputVal
deriving DecidableEq

/-- The property names every plain object literal inherits from
`Object.prototype`: looking any of these up on the `presets` literal yields
a truthy function or object, never `undefined`. -/
def objectPrototypeKeys : List String :=
  ["constructor", "hasOwnProperty", "isPrototypeOf", "propertyIsEnumerable",
   "toLocaleString", "toString", "valueOf", "__defineGetter__",
   "__defineSetter__", "__lookupGetter__", "__lookupSetter__", "__proto__"]

/-- The result of the JavaScript lookup `presets[type]`: one of the three
own scenario properties; a truthy member inherited from `Object.prototype`
(whose `.pressure`, `.humidity`, `.wind`, `.precipitation` are all
`undefined`); or `undefined` for every other name. -/
inductive PresetLookup where
  | scenario : Preset → PresetLookup
  | inherited : PresetLookup
  | absent : PresetLookup

/-- `presets[type]` in `loadPreset` of `src/frontend/script.js`
(lines 59-80): the object literal owns `sunny`, `storm`, `average`; any
other lookup continues along the prototype chain and finds a truthy value
exactly for the `Object.prototype` names. -/
def presetsLookup_scriptJs (t : String) : PresetLookup :=
  if t = "sunny" then .scenario ⟨1020, 45, 8, 0⟩
  else if t = "storm" then .scenario ⟨990, 85, 45, 25⟩
  else if t = "average" then .scenario ⟨1013.25, 60, 15, 2.5⟩
  else if t ∈ objectPrototypeKeys then .inherited
  else .absent

/-- `presets[type]` in `window.loadPreset` of `src/unnamed/part_000`
(lines 59-80): the same scenarios, values and prototype chain as the
`script.js` copy. -/
def presetsLookup_part000 (t : String) : PresetLookup :=
  if t = "sunny" then .scenario ⟨1020, 45, 8, 0⟩
  else if t = "storm" then .scenario ⟨990, 85, 45, 25⟩
  else if t = "average" then .scenario ⟨1013.25, 60, 15, 2.5⟩
  else if t ∈ objectPrototypeKeys then .inherited
  else .absent

/-- `presets[presetName]` against the module-level `presets` literal of
`src/unnamed/part_001` (lines 5-24): same scenario names, different values,
same prototype chain. -/
def presetsLookup_part001 (t : String) : PresetLookup :=
  if t = "sunny" then .scenario ⟨1025, 45, 8, 0⟩
  else if t = "storm" then .scenario ⟨995, 85, 35, 15⟩
  else if t = "average" then .scenario ⟨1013.25, 60, 12, 2⟩
  else if t ∈ objectPrototypeKeys then .inherited
  else .absent

/-- `loadPreset` from `src/frontend/script.js` (lines 58-98) as its effect
on the form inputs: `if (preset)` passes for any truthy lookup — the three
scenarios and the inherited `Object.prototype` members — and then assigns
`preset.pressure`, `preset.humidity`, `preset.wind`, `preset.precipitation`
to the four numeric inputs; on an inherited value those four properties are
`undefined`.  Only a name absent from the object and its prototype leaves
the form untouched.  The button-highlight styling is not part of the form
state. -/
def loadPreset_scriptJs (t : String) (f : FormInputs) : FormInputs :=
  match presetsLookup_scriptJs t with
  | .scenario p =>
    { f with pressure := .num p.pressure, humidity := .num p.humidity,
             wind := .num p.wind, precipitation := .num p.precipitation }
  | .inherited =>
    { f with pressure := .undefWrite, humidity := .undefWrite,
             wind := .undefWrite, precipitation := .undefWrite }
  | .absent => f

/-- `window.loadPreset` from `src/unnamed/part_000` (lines 58-109): the
same `if (preset)` guard and field assignments as the `script.js` copy. -/
def loadPreset_part000 (t : String) (f : FormInputs) : FormInputs :=
  match presetsLookup_part000 t with
  | .scenario p =>
    { f with pressure := .num p.pressure, humidity := .num p.humidity,
             wind := .num p.wind, precipitation := .num p.precipitation }
  | .inherited =>
    { f with pressure := .undefWrite, humidity := .undefWrite,
             wind := .undefWrite, precipitation := .undefWrite }
  | .absent => f

/-- `loadPreset` from `src/unnamed/part_001` (lines 67-86): `if (!preset)
return;` — which does not fire for truthy inherited lookups — followed by
the four field assignments. -/
def loadPreset_part001 (t : String) (f : FormInputs) : FormInputs :=
  match presetsLookup_part001 t with
  | .scenario p =>
    { f with pressure := .num p.pressure, humidity := .num p.humidity,
             wind := .num p.wind, precipitation := .num p.precipitation }
  | .inherited =>
    { f with pressure := .undefWrite, humidity := .undefWrite,
             wind := .undefWrite, precipitation := .undefWrite }
  | .absent => f

/-- C10 counterexample: `"constructor"` is none of the three preset names,
yet in all three copies `presets["constructor"]` finds the inherited
`Object.prototype.constructor`, the truthiness guard passes, and the four
numeric inputs are overwritten with the `undefined` property lookups — the
claim that any name other than the three presets leaves every form field
unchanged is false at this input. -/
theorem c10_loadPreset_prototype_leak :
    ("constructor" ≠ "sunny" ∧ "constructor" ≠ "storm" ∧
      "constructor" ≠ "average") ∧
    loadPreset_scriptJs "constructor"
        ⟨"2024-12-25", .num 1015, .num 68, .num 15, .num 1⟩ =
      ⟨"2024-12-25", .undefWrite, .undefWrite, .undefWrite, .undefWrite⟩ ∧
    loadPreset_scriptJs "constructor"
        ⟨"2024-12-25", .num 1015, .num 68, .num 15, .num 1⟩ ≠
      ⟨"2024-12-25", .num 1015, .num 68, .num 15, .num 1⟩ ∧
    loadPreset_part000 "constructor"
        ⟨"2024-12-25", .num 1015, .num 68, .num 15, .num 1⟩ ≠
      ⟨"2024-12-25", .num 1015, .num 68, .num 15, .num 1⟩ ∧
    loadPreset_part001 "constructor"
        ⟨"2024-12-25", .num 1015, .num 68, .num 15, .num 1⟩ ≠
      ⟨"2024-12-25", .num 1015, .num 68, .num 15, .num 1⟩ :=
  ⟨by decide, rfl, by decide, by decide, by decide⟩

/-- C10 (amended): in all three copies, `loadPreset` with a name that is
neither a preset scenario nor an `Object.prototype` property leaves every
form field unchanged; with `sunny`, `storm` or `average` it writes exactly
the four numeric fields — to scenario values depending only on the name —
leaving the target-date field unchanged; and with a name inherited from
`Object.prototype` (such as `constructor`) the truthiness guard passes and
it overwrites exactly the four numeric fields with the `undefined` lookups,
again leaving the target date unchanged. -/
theorem c10_loadPreset_frame (t : String) :
    ((t = "sunny" ∨ t = "storm" ∨ t = "average") →
      (∃ p : Preset, ∀ f : FormInputs, loadPreset_scriptJs t f =
        ⟨f.targetDate, .num p.pressure, .num p.humidity, .num p.wind,
         .num p.precipitation⟩) ∧
      (∃ p : Preset, ∀ f : FormInputs, loadPreset_part000 t f =
        ⟨f.targetDate, .num p.pressure, .num p.humidity, .num p.wind,
         .num p.precipitation⟩) ∧
      (∃ p : Preset, ∀ f : FormInputs, loadPreset_part001 t f =
        ⟨f.targetDate, .num p.pressure, .num p.humidity, .num p.wind,
         .num p.precipitation⟩)) ∧
    (¬(t = "sunny" ∨ t = "storm" ∨ t = "average") →
      t ∉ objectPrototypeKeys →
      ∀ f : FormInputs, loadPreset_scriptJs t f = f ∧
        loadPreset_part000 t f = f ∧ loadPreset_part001 t f = f) ∧
    (¬(t = "sunny" ∨ t = "storm" ∨ t = "average") →
      t ∈ objectPrototypeKeys →
      ∀ f : FormInputs,
        loadPreset_scriptJs t f =
          ⟨f.targetDate, .undefWrite, .undefWrite, .undefWrite, .undefWrite⟩ ∧
        loadPreset_part000 t f =
          ⟨f.targetDate, .undefWrite, .undefWrite, .undefWrite, .undefWrite⟩ ∧
        loadPreset_part001 t f =
          ⟨f.targetDate, .undefWrite, .undefWrite, .undefWrite, .undefWrite⟩) := by
  refine ⟨?_, ?_, ?_⟩
  · rintro (rfl | rfl | rfl) <;>
      exact ⟨⟨_, fun f => rfl⟩, ⟨_, fun f => rfl⟩, ⟨_, fun f => rfl⟩⟩
  · intro h hk f
    simp only [not_or] at h
    obtain ⟨h1, h2, h3⟩ := h
    refine ⟨?_, ?_, ?_⟩ <;>
      simp [loadPreset_scriptJs, loadPreset_part000, loadPreset_part001,
        presetsLookup_scriptJs, presetsLookup_part000, presetsLookup_part001,
        h1, h2, h3, hk]
  · intro h hk f
    simp only [not_or] at h
    obtain ⟨h1, h2, h3⟩ := h
    refine ⟨?_, ?_, ?_⟩ <;>
      simp [loadPreset_scriptJs, loadPreset_part000, loadPreset_part001,
        presetsLookup_scriptJs, presetsLookup_part000, presetsLookup_part001,
        h1, h2, h3, hk]

/-- C10 witness: the amended claim at the known name `sunny`, at the truly
absent name `bogus` (all three copies leave the form untouched), and at the
inherited name `constructor` (the four fields are overwritten, the date
preserved). -/
theorem c10_loadPreset_frame_witness :
    (∃ p : Preset, ∀ f : FormInputs, loadPreset_scriptJs "sunny" f =
      ⟨f.targetDate, .num p.pressure, .num p.humidity, .num p.wind,
       .num p.precipitation⟩) ∧
    (loadPreset_scriptJs "bogus" ⟨"2024-12-25", .num 1, .num 2, .num 3, .num 4⟩ =
       ⟨"2024-12-25", .num 1, .num 2, .num 3, .num 4⟩ ∧
     loadPreset_part000 "bogus" ⟨"2024-12-25", .num 1, .num 2, .num 3, .num 4⟩ =
       ⟨"2024-12-25", .num 1, .num 2, .num 3, .num 4⟩ ∧
     loadPreset_part001 "bogus" ⟨"2024-12-25", .num 1, .num 2, .num 3, .num 4⟩ =
       ⟨"2024-12-25", .num 1, .num 2, .num 3, .num 4⟩) ∧
    loadPreset_part001 "constructor" ⟨"2024-12-25", .num 1, .num 2, .num 3, .num 4⟩ =
      ⟨"2024-12-25", .undefWrite, .undefWrite, .undefWrite, .undefWrite⟩ :=
  ⟨((c10_loadPreset_frame "sunny").1 (Or.inl rfl)).1,
   (c10_loadPreset_frame "bogus").2.1 (by simp) (by decide)
     ⟨"2024-12-25", .num 1, .num 2, .num 3, .num 4⟩,
   ((c10_loadPreset_frame "constructor").2.2 (by simp) (by decide)
     ⟨"2024-12-25", .num 1, .num 2, .num 3, .num 4⟩).2.2⟩

/-- Modelled from the spec: a calendar date as the backend's target-date
parsing produces it (`src/app.py` is not under `src/`; spec sections 3 and
4.1). -/
structure SpecDate where
  year : ℕ
  month : ℕ
  day : ℕ
deriving DecidableEq

/-- The numeric value of a decimal digit character, `none` for a
non-digit. -/
def digitVal (c : Char) : Option ℕ :=
  if c.isDigit then some (c.toNat - 48) else none

/-- Gregorian leap-year rule, used to validate the day of month and derive
day-of-year. -/
def isLeap (y : ℕ) : Bool :=
  (y % 4 == 0 && y % 100 != 0) || y % 400 == 0

/-- Number of days in a month of a given year. -/
def monthLength (y m : ℕ) : ℕ :=
  if m = 2 then (if isLeap y then 29 else 28)
  else if m = 4 ∨ m = 6 ∨ m = 9 ∨ m = 11 then 30
  else 31

/-- Modelled from the spec: parsing of the `target_date` field (`src/app.py`
is not under `src/`).  Spec section 6 fixes the wire format to an ISO-8601
date string (`YYYY-MM-DD`); section 4.1 requires a malformed date string to
be a `ValidationError`.  The parser accepts exactly ten characters
`YYYY-MM-DD` denoting a valid calendar date. -/
def parseIsoDate (s : String) : Option SpecDate :=
  match s.toList with
  | [y1, y2, y3, y4, c1, m1, m2, c2, d1, d2] => do
    let a ← digitVal y1
    let b ← digitVal y2
    let c ← digitVal y3
    let d ← digitVal y4
    let e ← digitVal m1
    let f ← digitVal m2
    let g ← digitVal d1
    let k ← digitVal d2
    if c1 = '-' ∧ c2 = '-' then
      let y := 1000 * a + 100 * b + 10 * c + d
      let mo := 10 * e + f
      let da := 10 * g + k
      if 1 ≤ mo ∧ mo ≤ 12 ∧ 1 ≤ da ∧ da ≤ monthLength y mo then
        some ⟨y, mo, da⟩
      else none
    else none
  | _ => none

/-- Day of year (1-366) of a date, one of the calendar features the spec's
Feature Builder derives. -/
def dayOfYear (d : SpecDate) : ℕ :=
  ((List.range (d.month - 1)).map (fun i => monthLength d.year (i + 1))).sum + d.day

/-- Modelled from the spec: a numeric field of the wire-level request body
as the backend's validation sees it — absent, present but not a finite
number (JSON `NaN`/`Infinity` or a non-number), or a finite value (spec
section 3: "all four numeric fields must be present and parse as finite
numbers"). -/
inductive RawNum where
  | missing : RawNum
  | nonFinite : RawNum
  | val : ℚ → RawNum
deriving DecidableEq

/-- Modelled from the spec: the raw `POST /predict_temperature/` body before
validation (spec section 6). -/
structure RawRequest where
  target_date : String
  pressure_mean : RawNum
  humidity_mean : RawNum
  wind_mean : RawNum
  precip_mean : RawNum
deriving DecidableEq

/-- The finite value of a raw numeric field, if it has one. -/
def asFinite : RawNum → Option ℚ
  | .val q => some q
  | _ => none

/-- Modelled from the spec: a validated prediction request (spec
section 3). -/
structure PredictionRequest where
  target_date : SpecDate
  pressure_mean : ℚ
  humidity_mean : ℚ
  wind_mean : ℚ
  precip_mean : ℚ
deriving DecidableEq

/-- Modelled from the spec: the error taxonomy of spec section 7 —
`ValidationError` (4xx, carrying the offending field names for the `detail`
message), `ConfigurationError` (fatal at startup) and `ModelInferenceError`
(5xx). -/
inductive ApiError where
  | validation : List String → ApiError
  | configuration : String → ApiError
  | inference : String → ApiError
deriving DecidableEq

/-- Modelled from the spec: the field names a validation failure reports,
collected over every offending field (malformed date, missing or non-finite
numerics), as a Pydantic-style 422 detail would list them. -/
def offendingFields (r : RawRequest) : List String :=
  (if (parseIsoDate r.target_date).isSome then [] else ["target_date"]) ++
  (if (asFinite r.pressure_mean).isSome then [] else ["pressure_mean"]) ++
  (if (asFinite r.humidity_mean).isSome then [] else ["humidity_mean"]) ++
  (if (asFinite r.wind_mean).isSome then [] else ["wind_mean"]) ++
  (if (asFinite r.precip_mean).isSome then [] else ["precip_mean"])

/-- Modelled from the spec: request validation at the boundary (spec
sections 4.1 and 7): a malformed date or a missing/non-finite numeric field
is a `ValidationError` naming the offending fields; otherwise the validated
request is produced. -/
def validateRequest (r : RawRequest) : Except ApiError PredictionRequest :=
  match parseIsoDate r.target_date, asFinite r.pressure_mean,
        asFinite r.humidity_mean, asFinite r.wind_mean,
        asFinite r.precip_mean with
  | some d, some p, some h, some w, some pr => .ok ⟨d, p, h, w, pr⟩
  | _, _, _, _, _ => .error (.validation (offendingFields r))

/-- Modelled from the spec: the persisted metadata record (spec sections 3
and 6): feature-name list, feature count, the persisted error statistic as
an interval half-width, version string and model name. -/
structure Metadata where
  feature_names : List String
  feature_count : ℕ
  halfwidth : ℚ
  model_version : String
  model_name : String

/-- Modelled from the spec: the frozen artifacts loaded once at startup
(spec section 3): metadata, the historical temperature buffer (most recent
observation first), the scaler's `transform` and the two base estimators'
and the meta-estimator's `predict` capabilities, each opaque beyond that
capability. -/
structure Artifacts where
  metadata : Metadata
  historical_temps : List ℚ
  scaler : List ℚ → List ℚ
  baseA : List ℚ → ℚ
  baseB : List ℚ → ℚ
  meta_learner : ℚ → ℚ → ℚ

/-- The feature names the Feature Builder of spec section 4.1 can produce:
three calendar features, two lag features and the rolling mean from the
buffer, and the four request means copied verbatim (README `model_info`
names). -/
def knownFeatureNames : List String :=
  ["dayofyear", "month", "day", "temp_lag1", "temp_lag7", "temp_roll7",
   "pressure_mean", "humidity_mean", "wind_mean", "precip_mean"]

/-- Modelled from the spec: the process-wide state after a successful
startup — the artifacts together with the startup-checked invariants: the
buffer satisfies the longest lag (at least 7 entries) and the metadata
schema is consistent (count matches the name list, every name is a feature
the builder knows). -/
structure ServerState where
  artifacts : Artifacts
  buffer_ok : 7 ≤ artifacts.historical_temps.length
  schema_count_ok : artifacts.metadata.feature_names.length = artifacts.metadata.feature_count
  schema_names_ok : ∀ n ∈ artifacts.metadata.feature_names, n ∈ knownFeatureNames

/-- Modelled from the spec: startup (spec sections 5 and 7) — it fails fast
with a `ConfigurationError` if the historical buffer has fewer than 7
entries or the metadata schema is inconsistent, and otherwise produces the
immutable server state. -/
def startup (a : Artifacts) : Except ApiError ServerState :=
  if hb : a.historical_temps.length < 7 then
    .error (.configuration "historical temperature buffer has fewer than 7 entries")
  else if hc : a.metadata.feature_names.length = a.metadata.feature_count then
    if hk : ∀ n ∈ a.metadata.feature_names, n ∈ knownFeatureNames then
      .ok ⟨a, Nat.le_of_not_lt hb, hc, hk⟩
    else .error (.configuration "metadata names a feature the builder cannot produce")
  else .error (.configuration "feature count does not match the metadata feature-name list")

/-- Modelled from the spec: the value of one named feature (spec
section 4.1): calendar features derived from the target date, `lag1` the
most recent buffer temperature, `lag7` the temperature 7 observations
prior, the 7-day rolling mean, and the four meteorological means copied
verbatim; `none` for a name the builder does not know.  The `headD`/`getD`
defaults are unreachable in a `ServerState`, whose `buffer_ok` invariant
guarantees at least 7 entries. -/
def featureValue (s : ServerState) (req : PredictionRequest) (name : String) : Option ℚ :=
  let buf := s.artifacts.historical_temps
  if name = "dayofyear" then some (dayOfYear req.target_date : ℚ)
  else if name = "month" then some (req.target_date.month : ℚ)
  else if name = "day" then some (req.target_date.day : ℚ)
  else if name = "temp_lag1" then some (buf.headD 0)
  else if name = "temp_lag7" then some (buf.getD 6 0)
  else if name = "temp_roll7" then some ((buf.take 7).sum / 7)
  else if name = "pressure_mean" then some req.pressure_mean
  else if name = "humidity_mean" then some req.humidity_mean
  else if name = "wind_mean" then some req.wind_mean
  else if name = "precip_mean" then some req.precip_mean
  else none

/-- Modelled from the spec: the Feature Builder assembles the vector
strictly in the order of the given feature-name list (spec section 4.1),
failing if any name is unknown. -/
def buildFeatures (s : ServerState) (req : PredictionRequest) :
    List String → Option (List ℚ)
  | [] => some []
  | n :: rest =>
    match featureValue s req n, buildFeatures s req rest with
    | some x, some xs => some (x :: xs)
    | _, _ => none

/-- Modelled from the spec: the Ensemble Predictor (spec section 4.2) —
scale the vector, feed it to both base estimators, feed the two base
outputs to the meta-estimator. -/
def ensemblePredict (a : Artifacts) (v : List ℚ) : ℚ :=
  let scaled := a.scaler v
  a.meta_learner (a.baseA scaled) (a.baseB scaled)

/-- Modelled from the spec: the 200 response of `POST /predict_temperature/`
(spec section 6), with the confidence interval flattened into its three
fields. -/
structure Response where
  date : String
  predicted_global_temperature_celsius : ℚ
  model_used : String
  lower_bound : ℚ
  upper_bound : ℚ
  confidence_level : String
  model_version : String
deriving DecidableEq

/-- Modelled from the spec: the per-request pipeline (spec section 2):
validate, build the feature vector, predict, wrap in the symmetric interval
`point ± halfwidth` labelled `~95%` (spec section 4.3), echo the request
date.  A feature-assembly failure is a `ModelInferenceError`, never a
configuration error. -/
def handleRequest (s : ServerState) (r : RawRequest) : Except ApiError Response :=
  match validateRequest r with
  | .error e => .error e
  | .ok req =>
    match buildFeatures s req s.artifacts.metadata.feature_names with
    | none => .error (.inference "feature assembly")
    | some v =>
      let point := ensemblePredict s.artifacts v
      let m := s.artifacts.metadata
      .ok ⟨r.target_date, point, m.model_name, point - m.halfwidth,
           point + m.halfwidth, "~95%", m.model_version⟩

/-- Modelled from the spec: the HTTP status of a handled request (spec
sections 6 and 7): 200 on success, 422 for a validation failure, 500 for an
inference failure (a configuration error never occurs at request time). -/
def statusOf : Except ApiError Response → ℕ
  | .ok _ => 200
  | .error (.validation _) => 422
  | .error (.inference _) => 500
  | .error (.configuration _) => 500

/-- Modelled from the spec: serving one request against the shared state
(spec section 5): the call is a pure function of the request and the
artifacts, and the shared state is read-only, so it is returned
unchanged. -/
def serve (s : ServerState) (r : RawRequest) :
    Except ApiError Response × ServerState :=
  (handleRequest s r, s)

/-- Any error produced by request validation is a `ValidationError` carrying
the offending field names. -/
theorem validateRequest_error_shape (r : RawRequest) (e : ApiError)
    (h : validateRequest r = .error e) : ∃ fs, e = .validation fs := by
  unfold validateRequest at h
  split at h
  · exact absurd h (by simp)
  · exact ⟨_, by injection h with h2; exact h2.symm⟩

/-- Validation fails with the collected offending fields whenever the date
is malformed or any numeric field lacks a finite value. -/
theorem validateRequest_err (r : RawRequest)
    (h : parseIsoDate r.target_date = none ∨ asFinite r.pressure_mean = none ∨
         asFinite r.humidity_mean = none ∨ asFinite r.wind_mean = none ∨
         asFinite r.precip_mean = none) :
    validateRequest r = .error (.validation (offendingFields r)) := by
  unfold validateRequest
  split
  · rcases h with h | h | h | h | h <;> simp_all
  · rfl

/-- A successful `handleRequest` response has the shape the pipeline
constructs: the echoed date, a point estimate, and the symmetric interval
`point ± halfwidth` with the artifact's labels. -/
theorem handleRequest_ok_shape (s : ServerState) (r : RawRequest) (resp : Response)
    (h : handleRequest s r = .ok resp) :
    ∃ point : ℚ,
      resp = ⟨r.target_date, point, s.artifacts.metadata.model_name,
              point - s.artifacts.metadata.halfwidth,
              point + s.artifacts.metadata.halfwidth,
              "~95%", s.artifacts.metadata.model_version⟩ := by
  unfold handleRequest at h
  split at h
  · exact absurd h (by simp)
  · split at h
    · exact absurd h (by simp)
    · exact ⟨_, by injection h with h2; exact h2.symm⟩

/-- C4: for every valid request, the returned interval satisfies
`lower = point - halfwidth` and `upper = point + halfwidth` for the
artifact's configured half-width, hence the width equals twice the
half-width — the same constant for any two requests served from the same
state — and the point estimate lies strictly between the bounds whenever
the half-width is positive. -/
theorem c4_interval :
    (∀ (s : ServerState) (r : RawRequest) (resp : Response),
      handleRequest s r = .ok resp →
      resp.lower_bound =
          resp.predicted_global_temperature_celsius - s.artifacts.metadata.halfwidth ∧
      resp.upper_bound =
          resp.predicted_global_temperature_celsius + s.artifacts.metadata.halfwidth ∧
      resp.upper_bound - resp.lower_bound = 2 * s.artifacts.metadata.halfwidth ∧
      (0 < s.artifacts.metadata.halfwidth →
        resp.lower_bound < resp.predicted_global_temperature_celsius ∧
        resp.predicted_global_temperature_celsius < resp.upper_bound)) ∧
    (∀ (s : ServerState) (r1 r2 : RawRequest) (resp1 resp2 : Response),
      handleRequest s r1 = .ok resp1 → handleRequest s r2 = .ok resp2 →
      resp1.upper_bound - resp1.lower_bound =
        resp2.upper_bound - resp2.lower_bound) := by
  have key : ∀ (s : ServerState) (r : RawRequest) (resp : Response),
      handleRequest s r = .ok resp →
      resp.lower_bound =
          resp.predicted_global_temperature_celsius - s.artifacts.metadata.halfwidth ∧
      resp.upper_bound =
          resp.predicted_global_temperature_celsius + s.artifacts.metadata.halfwidth := by
    intro s r resp h
    obtain ⟨point, rfl⟩ := handleRequest_ok_shape s r resp h
    exact ⟨rfl, rfl⟩
  constructor
  · intro s r resp h
    obtain ⟨hl, hu⟩ := key s r resp h
    refine ⟨hl, hu, by rw [hl, hu]; ring, fun hpos => ⟨?_, ?_⟩⟩
    · rw [hl]; linarith
    · rw [hu]; linarith
  · intro s r1 r2 resp1 resp2 h1 h2
    obtain ⟨hl1, hu1⟩ := key s r1 resp1 h1
    obtain ⟨hl2, hu2⟩ := key s r2 resp2 h2
    rw [hl1, hu1, hl2, hu2]; ring

/-- C5: a malformed target date yields a `ValidationError` whose detail
names `target_date`, and a missing or non-finite numeric field yields a
`ValidationError` naming that field; in each case the response status is
422, never a generic 500. -/
theorem c5_validation_errors (s : ServerState) (r : RawRequest) :
    (parseIsoDate r.target_date = none →
      handleRequest s r = .error (.validation (offendingFields r)) ∧
      "target_date" ∈ offendingFields r ∧ statusOf (handleRequest s r) = 422) ∧
    (asFinite r.pressure_mean = none →
      handleRequest s r = .error (.validation (offendingFields r)) ∧
      "pressure_mean" ∈ offendingFields r ∧ statusOf (handleRequest s r) = 422) ∧
    (asFinite r.humidity_mean = none →
      handleRequest s r = .error (.validation (offendingFields r)) ∧
      "humidity_mean" ∈ offendingFields r ∧ statusOf (handleRequest s r) = 422) ∧
    (asFinite r.wind_mean = none →
      handleRequest s r = .error (.validation (offendingFields r)) ∧
      "wind_mean" ∈ offendingFields r ∧ statusOf (handleRequest s r) = 422) ∧
    (asFinite r.precip_mean = none →
      handleRequest s r = .error (.validation (offendingFields r)) ∧
      "precip_mean" ∈ offendingFields r ∧ statusOf (handleRequest s r) = 422) := by
  refine ⟨?_, ?_, ?_, ?_, ?_⟩ <;> intro h <;>
    have hv := validateRequest_err r (by tauto) <;>
    exact ⟨by simp [handleRequest, hv],
           by simp [offendingFields, h],
           by simp [handleRequest, hv, statusOf]⟩

/-- C6: a historical buffer with fewer than 7 entries makes startup fail
with a fatal `ConfigurationError`; any state that serves requests has a
buffer of at least 7 entries; and no request is ever answered with a
configuration error. -/
theorem c6_buffer_startup :
    (∀ a : Artifacts, a.historical_temps.length < 7 →
      ∃ m, startup a = .error (.configuration m)) ∧
    (∀ (a : Artifacts) (s : ServerState), startup a = .ok s →
      7 ≤ s.artifacts.historical_temps.length) ∧
    (∀ (s : ServerState) (r : RawRequest) (m : String),
      handleRequest s r ≠ .error (.configuration m)) := by
  refine ⟨?_, ?_, ?_⟩
  · intro a h
    refine ⟨"historical temperature buffer has fewer than 7 entries", ?_⟩
    unfold startup
    rw [dif_pos h]
  · intro a s _
    exact s.buffer_ok
  · intro s r m h
    unfold handleRequest at h
    split at h
    · rename_i e heq
      obtain ⟨fs, rfl⟩ := validateRequest_error_shape r e heq
      simp at h
    · split at h
      · simp at h
      · simp at h

/-- C7: serving the same request twice against the shared state yields
identical outputs, and the shared state is unchanged by a call: the
embedded pipeline is a pure function of the request and the artifacts. -/
theorem c7_idempotent (s : ServerState) (r : RawRequest) :
    (serve s r).2 = s ∧ (serve ((serve s r).2) r).1 = (serve s r).1 :=
  ⟨rfl, rfl⟩

/-- Every feature name the startup schema check admits has a value for any
validated request. -/
theorem featureValue_known (s : ServerState) (req : PredictionRequest)
    (n : String) (h : n ∈ knownFeatureNames) :
    ∃ q, featureValue s req n = some q := by
  simp only [knownFeatureNames, List.mem_cons, List.not_mem_nil, or_false] at h
  rcases h with rfl | rfl | rfl | rfl | rfl | rfl | rfl | rfl | rfl | rfl <;>
    exact ⟨_, rfl⟩

/-- The Feature Builder succeeds on any name list the schema check admits,
producing one entry per name, in order. -/
theorem buildFeatures_total (s : ServerState) (req : PredictionRequest) :
    ∀ names : List String, (∀ n ∈ names, n ∈ knownFeatureNames) →
      ∃ v, buildFeatures s req names = some v ∧ v.length = names.length ∧
        ∀ i : ℕ, v.get? i = (names.get? i).bind (featureValue s req) := by
  intro names
  induction names with
  | nil => exact fun _ => ⟨[], rfl, rfl, fun i => by simp⟩
  | cons n rest ih =>
    intro h
    obtain ⟨q, hq⟩ := featureValue_known s req n (h n (by simp))
    obtain ⟨v, hv, hl, ho⟩ := ih (fun m hm => h m (by simp [hm]))
    refine ⟨q :: v, by simp [buildFeatures, hq, hv], by simp [hl], ?_⟩
    intro i
    cases i with
    | zero => simp [hq]
    | succ k => simpa using ho k

/-- C8: for every validated request, the feature vector built over the
metadata's feature-name list exists, its length equals the metadata-declared
feature count, and its `i`-th entry is the value of the `i`-th metadata
feature name; a count mismatch between the name list and the declared count
makes startup fail with a `ConfigurationError`, so it can never surface
per-request. -/
theorem c8_feature_vector :
    (∀ (s : ServerState) (req : PredictionRequest),
      ∃ v, buildFeatures s req s.artifacts.metadata.feature_names = some v ∧
        v.length = s.artifacts.metadata.feature_count ∧
        ∀ i : ℕ, v.get? i =
          (s.artifacts.metadata.feature_names.get? i).bind (featureValue s req)) ∧
    (∀ a : Artifacts,
      a.metadata.feature_names.length ≠ a.metadata.feature_count →
      ∃ m, startup a = .error (.configuration m)) := by
  constructor
  · intro s req
    obtain ⟨v, hv, hl, ho⟩ := buildFeatures_total s req _ s.schema_names_ok
    exact ⟨v, hv, by rw [hl, s.schema_count_ok], ho⟩
  · intro a h
    by_cases hb : a.historical_temps.length < 7
    · refine ⟨"historical temperature buffer has fewer than 7 entries", ?_⟩
      unfold startup
      rw [dif_pos hb]
    · refine ⟨"feature count does not match the metadata feature-name list", ?_⟩
      unfold startup
      rw [dif_neg hb, dif_neg h]

/-- A concrete metadata record for witnesses: two known features, matching
count, half-width 2. -/
def demoMetadata : Metadata :=
  ⟨["pressure_mean", "temp_lag1"], 2, 2, "1.0",
   "Ensemble Stacking Regressor (XGBoost + RidgeCV)"⟩

/-- Concrete artifacts for witnesses: a 7-entry buffer, identity scaler,
constant base estimators and a first-projection meta-learner. -/
def demoArtifacts : Artifacts :=
  ⟨demoMetadata, [10, 11, 12, 13, 14, 15, 16], id, fun _ => 15, fun _ => 13,
   fun a _ => a⟩

/-- The server state obtained from the demo artifacts. -/
def demoState : ServerState :=
  ⟨demoArtifacts, by decide,
   by decide,
   by intro n hn; fin_cases hn <;> simp [knownFeatureNames]⟩

/-- The README's sample request as a raw wire body. -/
def demoRequest : RawRequest :=
  ⟨"2024-12-25", .val 1015, .val 68, .val 15, .val 1⟩

/-- The response the demo state produces for the demo request. -/
def demoResponse : Response :=
  ⟨"2024-12-25", 15, "Ensemble Stacking Regressor (XGBoost + RidgeCV)",
   15 - 2, 15 + 2, "~95%", "1.0"⟩

/-- The demo request is served successfully with the demo response. -/
theorem demo_handle : handleRequest demoState demoRequest = .ok demoResponse := rfl

/-- C4 witness: the theorem applied to the demo state and request. -/
theorem c4_interval_witness :
    demoResponse.upper_bound - demoResponse.lower_bound =
      2 * demoState.artifacts.metadata.halfwidth ∧
    demoResponse.lower_bound < demoResponse.predicted_global_temperature_celsius ∧
    demoResponse.predicted_global_temperature_celsius < demoResponse.upper_bound :=
  ⟨(c4_interval.1 demoState demoRequest demoResponse demo_handle).2.2.1,
   ((c4_interval.1 demoState demoRequest demoResponse demo_handle).2.2.2
      (by norm_num [demoState, demoArtifacts, demoMetadata])).1,
   ((c4_interval.1 demoState demoRequest demoResponse demo_handle).2.2.2
      (by norm_num [demoState, demoArtifacts, demoMetadata])).2⟩

/-- A request with a malformed date string. -/
def badDateRequest : RawRequest :=
  ⟨"not-a-date", .val 1015, .val 68, .val 15, .val 1⟩

/-- A request missing the pressure field. -/
def missingPressureRequest : RawRequest :=
  ⟨"2024-12-25", .missing, .val 68, .val 15, .val 1⟩

/-- C5 witness: the theorem applied to a malformed-date request and to a
request missing `pressure_mean`. -/
theorem c5_validation_errors_witness :
    ("target_date" ∈ offendingFields badDateRequest ∧
      statusOf (handleRequest demoState badDateRequest) = 422) ∧
    ("pressure_mean" ∈ offendingFields missingPressureRequest ∧
      statusOf (handleRequest demoState missingPressureRequest) = 422) :=
  ⟨⟨((c5_validation_errors demoState badDateRequest).1 rfl).2.1,
    ((c5_validation_errors demoState badDateRequest).1 rfl).2.2⟩,
   ⟨((c5_validation_errors demoState missingPressureRequest).2.1 rfl).2.1,
    ((c5_validation_errors demoState missingPressureRequest).2.1 rfl).2.2⟩⟩

/-- Artifacts whose historical buffer has only 3 entries. -/
def smallBufferArtifacts : Artifacts :=
  { demoArtifacts with historical_temps := [10, 11, 12] }

/-- C6 witness: startup rejects the 3-entry buffer, the demo startup
yields a state with a full buffer, and the demo request is not answered
with a configuration error. -/
theorem c6_buffer_startup_witness :
    (∃ m, startup smallBufferArtifacts = .error (.configuration m)) ∧
    7 ≤ demoState.artifacts.historical_temps.length ∧
    handleRequest demoState demoRequest ≠ .error (.configuration "x") :=
  ⟨c6_buffer_startup.1 smallBufferArtifacts (by decide),
   c6_buffer_startup.2.1 demoArtifacts demoState rfl,
   c6_buffer_startup.2.2 demoState demoRequest "x"⟩

/-- The README's sample request after validation. -/
def demoValidRequest : PredictionRequest := ⟨⟨2024, 12, 25⟩, 1015, 68, 15, 1⟩

/-- Artifacts whose declared feature count disagrees with the name list. -/
def mismatchArtifacts : Artifacts :=
  { demoArtifacts with metadata := { demoMetadata with feature_count := 3 } }

/-- C8 witness: the theorem applied to the demo state and the validated
sample request, and to the mismatched artifacts. -/
theorem c8_feature_vector_witness :
    (∃ v, buildFeatures demoState demoValidRequest
        demoState.artifacts.metadata.feature_names = some v ∧
      v.length = demoState.artifacts.metadata.feature_count) ∧
    (∃ m, startup mismatchArtifacts = .error (.configuration m)) :=
  ⟨(c8_feature_vector.1 demoState demoValidRequest).elim
      (fun v hv => ⟨v, hv.1, hv.2.1⟩),
   c8_feature_vector.2 mismatchArtifacts (by decide)⟩

end WeatherTrend
